import Mathlib

/-!
Verification development for the `pv-forecast` service (`src/app.py`).

Floating-point arithmetic of the source is modelled over `ℚ`; numpy 1-D
arrays are modelled as `List ℚ` with numpy's broadcasting rule for binary
element-wise operations (equal lengths zip element-wise; a length-1 array
broadcasts over the other; any other length mismatch raises, modelled as
`none`). External collaborators (geocoder, weather service) are modelled
as explicit outcome parameters.
-/

namespace PVForecast

/-- Model of `PVSystem` (pydantic model in `src/app.py`): one physical panel array. -/
structure PVSystem where
  power : ℚ
  inclination : ℚ
  azimuth : ℚ
  module_efficiency : ℚ
  temperature_coefficient : ℚ
  noct : ℚ
  system_losses : ℚ
deriving DecidableEq, Repr

/-- Pydantic field validation of `PVSystem`:
`power > 0`, `0 ≤ inclination ≤ 90`, `-180 ≤ azimuth ≤ 180`,
`0.1 ≤ module_efficiency ≤ 0.25`, `-0.01 ≤ temperature_coefficient ≤ 0`,
`40 ≤ noct ≤ 50`, `0.05 ≤ system_losses ≤ 0.25`. -/
def PVSystem.validates (s : PVSystem) : Bool :=
  (0 < s.power) ∧ (0 ≤ s.inclination ∧ s.inclination ≤ 90) ∧
  (-180 ≤ s.azimuth ∧ s.azimuth ≤ 180) ∧
  (1/10 ≤ s.module_efficiency ∧ s.module_efficiency ≤ 25/100) ∧
  (-1/100 ≤ s.temperature_coefficient ∧ s.temperature_coefficient ≤ 0) ∧
  (40 ≤ s.noct ∧ s.noct ≤ 50) ∧
  (5/100 ≤ s.system_losses ∧ s.system_losses ≤ 25/100)

/-- Model of `ForecastRequest` (pydantic model): an address plus a list of PV systems. -/
structure ForecastRequest where
  address : String
  pv_systems : List PVSystem

/-- Pydantic validation of `ForecastRequest`: `address` has `min_length=3`
and `pv_systems` has `max_items=3` (no lower bound is declared in the code). -/
def ForecastRequest.validates (r : ForecastRequest) : Bool :=
  (3 ≤ r.address.length) ∧ (r.pv_systems.length ≤ 3) ∧
  r.pv_systems.all PVSystem.validates

/-- Constant `STC_TEMPERATURE = 25.0` in `src/app.py`. -/
def STC_TEMPERATURE : ℚ := 25

/-- Constant `STC_IRRADIANCE = 1000.0` in `src/app.py`. -/
def STC_IRRADIANCE : ℚ := 1000

/-- Numpy broadcasting for a binary element-wise operation on 1-D arrays:
equal lengths combine index-wise; a length-1 array is broadcast over the
other; any other mismatch raises (`none`). -/
def broadcast2 (f : ℚ → ℚ → ℚ) (a b : List ℚ) : Option (List ℚ) :=
  if a.length = b.length then some (List.zipWith f a b)
  else if a.length = 1 then some (b.map (f a.headI))
  else if b.length = 1 then some (a.map (fun x => f x b.headI))
  else none

/-- Model of `calculate_advanced_pv_energy` from `src/app.py`:
cell temperature `T_c = T_a + ((NOCT - 20) / 800) * I_POA`, then
temperature-corrected efficiency `η = η_STC * (1 + γ * (T_c - 25))`,
module area `(power * 1000) / (η_STC * STC_IRRADIANCE)`, and hourly
energy `I_POA * area * η * (1 - losses) / 1000`. Array operations use
numpy broadcasting; `none` models the raised broadcast error. -/
def calculate_advanced_pv_energy (irradiance ambient_temp : List ℚ)
    (system : PVSystem) : Option (List ℚ) :=
  match broadcast2 (fun t i => t + ((system.noct - 20) / 800) * i)
      ambient_temp irradiance with
  | none => none
  | some cell_temperature =>
    let module_efficiency := cell_temperature.map (fun c =>
      system.module_efficiency *
        (1 + system.temperature_coefficient * (c - STC_TEMPERATURE)))
    let module_area := (system.power * 1000) /
      (system.module_efficiency * STC_IRRADIANCE)
    broadcast2
      (fun i e => i * module_area * e * (1 - system.system_losses) / 1000)
      irradiance module_efficiency

/-- A geocoder suggestion, as returned by `/api/geocode`. -/
structure GeoSuggestion where
  address : String
  latitude : ℚ
  longitude : ℚ
deriving DecidableEq, Repr

/-- Python's `str.strip()`: leading and trailing whitespace removed. -/
def pyStrip (s : String) : String :=
  ⟨((s.data.dropWhile Char.isWhitespace).reverse.dropWhile
      Char.isWhitespace).reverse⟩

/-- The outcome of one call to the external geocoder in autocomplete mode:
`.error` models a raised exception, `.ok locs` a (possibly empty) result
list (`None` from geopy is modelled as the empty list, which the code
treats identically via `if not locations`). -/
abbrev GeocoderOutcome := Except Unit (List GeoSuggestion)

/-- Model of `geocode_address` (`GET /api/geocode`) from `src/app.py`, as a function
of the external geocoder's outcome. Returns the suggestion list sent to the
client, paired with whether the external geocoder was invoked. Queries whose
stripped form is shorter than 3 characters return no suggestions without
calling the geocoder; a geocoder exception is swallowed into an empty list. -/
def geocode_address (geocoder : GeocoderOutcome) (query : String) :
    List GeoSuggestion × Bool :=
  if (pyStrip query).length < 3 then ([], false)
  else
    match geocoder with
    | .error _ => ([], true)
    | .ok locations =>
      if locations.isEmpty then ([], true) else (locations, true)

/-- Rounding to 2 decimal places (`round(x, 2)` / `Series.round(2)`). -/
def round2 (q : ℚ) : ℚ := (round (q * 100) : ℤ) / 100

/-- Model of `pd.Series(xs).reindex(range(168), fill_value=0.0)`: position `i` of the
result is `xs[i]` when `i < len(xs)` and `0.0` otherwise; positions of `xs`
beyond 167 are dropped. -/
def reindex168 (xs : List ℚ) : List ℚ :=
  (List.range 168).map (fun i => xs.getD i 0)

/-- Element-wise addition of two aligned pandas Series
(`total_hourly_kwh += series_kwh`, both indexed `0..167`). -/
def addSeries (a b : List ℚ) : List ℚ := List.zipWith (· + ·) a b

/-- The outcome of one weather fetch for one system: `.error` models a
raised exception, `.ok (irradiance, ambient_temp)` the two hourly arrays. -/
abbrev FetchOutcome := Except Unit (List ℚ × List ℚ)

/-- One iteration of the per-system loop in `get_pv_forecast`: on a fetch
exception or a model (broadcast) error the `except` clause skips the system
and `total_hourly_kwh` is unchanged; otherwise the energy series is
reindexed to 168 points and added element-wise. -/
def processSystem (total : List ℚ) (system : PVSystem)
    (fetch : FetchOutcome) : List ℚ :=
  match fetch with
  | .error _ => total
  | .ok (irradiance, ambient_temp) =>
    match calculate_advanced_pv_energy irradiance ambient_temp system with
    | none => total
    | some hourly_kwh => addSeries total (reindex168 hourly_kwh)

/-- The combined hourly series built by `get_pv_forecast`: starting from
`pd.Series([0.0] * 168)`, fold the per-system loop over the request's
systems paired with their weather-fetch outcomes. -/
def combinedHourly (systems : List (PVSystem × FetchOutcome)) : List ℚ :=
  systems.foldl (fun t p => processSystem t p.1 p.2) (List.replicate 168 0)

/-- The `daily_totals` loop of `get_pv_forecast`: for each of 7 days, sum
hours `day*24 .. day*24+23` of the combined series and round to 2 decimals. -/
def daily_totals (total_hourly_kwh : List ℚ) : List ℚ :=
  (List.range 7).map (fun day =>
    round2 (((total_hourly_kwh.drop (day * 24)).take 24).sum))

/-- The JSON body returned by `POST /api/forecast` on success. -/
structure ForecastResult where
  latitude : ℚ
  longitude : ℚ
  hourly_forecast_kwh : List ℚ
  daily_totals_kwh : List ℚ
  total_daily_kwh : ℚ
deriving Repr

/-- The successful-response construction at the end of `get_pv_forecast`:
the hourly series rounded to 2 decimals, the daily totals, and
`total_daily_kwh = round(daily_totals[0], 2)`. -/
def forecastResult (latitude longitude : ℚ)
    (systems : List (PVSystem × FetchOutcome)) : ForecastResult :=
  let total_hourly_kwh := combinedHourly systems
  let daily := daily_totals total_hourly_kwh
  { latitude := latitude
    longitude := longitude
    hourly_forecast_kwh := total_hourly_kwh.map round2
    daily_totals_kwh := daily
    total_daily_kwh := round2 (daily.getD 0 0) }

/-- The outcome of geocoding the request's address in `get_pv_forecast`:
a resolved location, no match (`not location`), or a raised exception. -/
inductive GeoOutcome where
  | found (latitude longitude : ℚ)
  | noMatch
  | exn

/-- HTTP error responses raised by `get_pv_forecast`. -/
inductive HTTPError where
  | notFound
  | serverError
deriving DecidableEq, Repr

/-- Model of `get_pv_forecast` (`POST /api/forecast`) from `src/app.py`, as a
function of the geocoding outcome and the per-system weather-fetch
outcomes: 404 when the address has no match, 500 when geocoding raises,
otherwise the aggregated `ForecastResult`. -/
def get_pv_forecast (geo : GeoOutcome)
    (systems : List (PVSystem × FetchOutcome)) :
    Except HTTPError ForecastResult :=
  match geo with
  | .noMatch => .error .notFound
  | .exn => .error .serverError
  | .found latitude longitude =>
    .ok (forecastResult latitude longitude systems)

/-! ### Helper lemmas -/

/-- When the two arrays have equal lengths, broadcasting is `zipWith`. -/
lemma broadcast2_of_length_eq {f : ℚ → ℚ → ℚ} {a b : List ℚ}
    (h : a.length = b.length) :
    broadcast2 f a b = some (List.zipWith f a b) := by
  simp [broadcast2, h]

/-- Closed form of the reindexing map for an arbitrary target length. -/
lemma range_map_getD (xs : List ℚ) :
    ∀ n : ℕ, (List.range n).map (fun i => xs.getD i 0) =
      xs.take n ++ List.replicate (n - xs.length) 0 := by
  induction xs with
  | nil =>
    intro n
    have : (fun i => ([] : List ℚ).getD i 0) = Function.const ℕ (0 : ℚ) := by
      funext i; simp [List.getD_nil, Function.const]
    simp [this, List.map_const, List.length_range]
  | cons a t ih =>
    intro n
    cases n with
    | zero => simp
    | succ m =>
      rw [List.range_succ_eq_map, List.map_cons, List.map_map]
      have hcomp :
          ((fun i => (a :: t).getD i 0) ∘ Nat.succ) =
            fun i => t.getD i 0 := by
        funext i
        simp [Function.comp, List.getD_cons_succ]
      rw [hcomp, ih m]
      simp [List.getD_cons_zero, Nat.succ_sub_succ]

/-- Reindexing via `reindex168` truncates to the first 168 positions and zero-fills the
missing trailing ones. -/
lemma reindex168_eq (xs : List ℚ) :
    reindex168 xs = xs.take 168 ++ List.replicate (168 - xs.length) 0 :=
  range_map_getD xs 168

/-- Reindexing via `reindex168` always produces exactly 168 positions. -/
lemma reindex168_length (xs : List ℚ) : (reindex168 xs).length = 168 := by
  simp [reindex168]

/-- The per-system loop step preserves the 168-point shape of the total. -/
lemma processSystem_length {total : List ℚ} (h : total.length = 168)
    (sys : PVSystem) (fetch : FetchOutcome) :
    (processSystem total sys fetch).length = 168 := by
  rcases fetch with u | ⟨irr, temp⟩
  · simpa [processSystem] using h
  · rcases hc : calculate_advanced_pv_energy irr temp sys with _ | kwh
    · simp [processSystem, hc, h]
    · simp [processSystem, hc, addSeries, List.length_zipWith,
        reindex168_length, h]

/-- The combined hourly series always has exactly 168 points. -/
lemma combinedHourly_length (systems : List (PVSystem × FetchOutcome)) :
    (combinedHourly systems).length = 168 := by
  unfold combinedHourly
  generalize hinit : List.replicate 168 (0 : ℚ) = init
  have h0 : init.length = 168 := by rw [← hinit]; exact List.length_replicate 168 0
  clear hinit
  induction systems generalizing init with
  | nil => simpa using h0
  | cons p l ih => exact ih _ (processSystem_length h0 p.1 p.2)

/-- Rounding via `round2` is idempotent: a value already rounded to 2 decimals is fixed. -/
lemma round2_round2 (q : ℚ) : round2 (round2 q) = round2 q := by
  unfold round2
  rw [div_mul_cancel₀ _ (by norm_num : (100 : ℚ) ≠ 0), round_intCast]

/-- Two binary operations related by a constant factor broadcast to results
related element-wise by that factor. -/
lemma broadcast2_scale (c : ℚ) {f g : ℚ → ℚ → ℚ}
    (hfg : ∀ x y, g x y = c * f x y) (a b : List ℚ) :
    broadcast2 g a b = (broadcast2 f a b).map (List.map (fun x => c * x)) := by
  have hg : g = fun x y => c * f x y := funext fun x => funext fun y => hfg x y
  subst hg
  unfold broadcast2
  split_ifs with h1 h2 h3
  · show _ = Option.map _ (some _)
    rw [Option.map_some', List.map_zipWith]
  · show _ = Option.map _ (some _)
    rw [Option.map_some', List.map_map]
    rfl
  · show _ = Option.map _ (some _)
    rw [Option.map_some', List.map_map]
    rfl
  · rfl

/-- Stripping never lengthens a string. -/
lemma pyStrip_length_le (s : String) : (pyStrip s).length ≤ s.length := by
  show (((s.data.dropWhile Char.isWhitespace).reverse.dropWhile
      Char.isWhitespace).reverse).length ≤ s.data.length
  rw [List.length_reverse]
  exact le_trans (List.dropWhile_sublist _).length_le
    (by rw [List.length_reverse]; exact (List.dropWhile_sublist _).length_le)

/-- Fusing the three element-wise passes of the energy model into one. -/
lemma zipWith_map_zipWith (f2 : ℚ → ℚ → ℚ) (g : ℚ → ℚ) (f : ℚ → ℚ → ℚ) :
    ∀ a b : List ℚ,
      List.zipWith f2 a ((List.zipWith f b a).map g) =
        List.zipWith (fun x y => f2 x (g (f y x))) a b := by
  intro a
  induction a with
  | nil => intro b; simp
  | cons x xs ih =>
    intro b
    cases b with
    | nil => simp
    | cons y ys => simp [ih]

/-- On equal-length inputs the energy model is the element-wise closed form
of the source's four arithmetic steps. -/
lemma calculate_of_length_eq (irr temp : List ℚ) (s : PVSystem)
    (h : irr.length = temp.length) :
    calculate_advanced_pv_energy irr temp s =
      some (List.zipWith (fun i t =>
        i * ((s.power * 1000) / (s.module_efficiency * 1000)) *
          (s.module_efficiency * (1 + s.temperature_coefficient *
            ((t + ((s.noct - 20) / 800) * i) - 25))) *
          (1 - s.system_losses) / 1000) irr temp) := by
  unfold calculate_advanced_pv_energy
  rw [broadcast2_of_length_eq h.symm]
  show broadcast2 _ irr _ = _
  rw [broadcast2_of_length_eq
    (by rw [List.length_map, List.length_zipWith, ← h, min_self])]
  rw [zipWith_map_zipWith]
  rfl

/-! ### Claim theorems -/

/-- C1: for equal-length input series and any `PVSystem`, the energy model
returns a series of the same length whose `i`-th element is
`irradiance[i] * Area * η_eff_i * (1 - system_losses) / 1000`, with
`Area = (power * 1000) / (module_efficiency * 1000)`,
`η_eff_i = module_efficiency * (1 + temperature_coefficient * (T_cell_i - 25))`
and `T_cell_i = ambient_temp[i] + ((noct - 20) / 800) * irradiance[i]`. -/
theorem C1_energy_model_formula (irr temp : List ℚ) (s : PVSystem)
    (h : irr.length = temp.length) :
    ∃ out, calculate_advanced_pv_energy irr temp s = some out ∧
      out.length = irr.length ∧
      ∀ i, i < irr.length →
        out.getD i 0 =
          irr.getD i 0 * ((s.power * 1000) / (s.module_efficiency * 1000)) *
            (s.module_efficiency * (1 + s.temperature_coefficient *
              ((temp.getD i 0 + ((s.noct - 20) / 800) * irr.getD i 0) - 25))) *
            (1 - s.system_losses) / 1000 := by
  refine ⟨_, calculate_of_length_eq irr temp s h, ?_, ?_⟩
  · rw [List.length_zipWith, h, min_self]
  · intro i hi
    have hit : i < temp.length := h ▸ hi
    have hiz : i < (List.zipWith (fun i t =>
        i * ((s.power * 1000) / (s.module_efficiency * 1000)) *
          (s.module_efficiency * (1 + s.temperature_coefficient *
            ((t + ((s.noct - 20) / 800) * i) - 25))) *
          (1 - s.system_losses) / 1000) irr temp).length := by
      rw [List.length_zipWith, h, min_self]; exact hit
    rw [List.getD_eq_getElem _ _ hiz, List.getElem_zipWith,
      List.getD_eq_getElem _ _ hi, List.getD_eq_getElem _ _ hit]

/-- C3: constant full-sun irradiance (1000 W/m²) at exactly STC ambient
temperature (25 °C), with a 5 kWp system at 20% efficiency, zero
temperature coefficient, NOCT 45 and zero losses, yields exactly 5 kWh in
every one of the 168 hours. -/
theorem C3_full_sun_stc_example :
    ∃ out, calculate_advanced_pv_energy (List.replicate 168 1000)
        (List.replicate 168 25)
        { power := 5, inclination := 30, azimuth := 0,
          module_efficiency := 1/5, temperature_coefficient := 0,
          noct := 45, system_losses := 0 } = some out ∧
      out = List.replicate 168 5 ∧ ∀ i, i < 168 → out.getD i 0 = 5 := by
  have hlen : (List.replicate 168 (1000 : ℚ)).length =
      (List.replicate 168 (25 : ℚ)).length := by
    rw [List.length_replicate, List.length_replicate]
  refine ⟨_, calculate_of_length_eq _ _ _ hlen, ?_, ?_⟩
  · rw [List.zipWith_replicate, min_self]
    norm_num
  · intro i hi
    rw [List.zipWith_replicate, min_self]
    have hi' : i < (List.replicate 168 ((1000 : ℚ) *
        ((5 * 1000) / (1/5 * 1000)) *
        (1/5 * (1 + 0 * ((25 + ((45 - 20) / 800) * 1000) - 25))) *
        (1 - 0) / 1000)).length := by
      rw [List.length_replicate]; exact hi
    rw [List.getD_eq_getElem _ _ hi', List.getElem_replicate]
    norm_num

/-- Witness for C1 at the concrete input `irr = [1000, 500]`,
`temp = [25, 30]`. -/
theorem C1_energy_model_formula_witness :
    ∃ out,
      calculate_advanced_pv_energy [1000, 500] [25, 30]
        { power := 5, inclination := 30, azimuth := 0,
          module_efficiency := 1/5, temperature_coefficient := 0,
          noct := 45, system_losses := 0 } = some out ∧
      out.length = 2 ∧
      ∀ i, i < 2 →
        out.getD i 0 =
          ([1000, 500] : List ℚ).getD i 0 * ((5 * 1000) / (1/5 * 1000)) *
            (1/5 * (1 + 0 *
              ((([25, 30] : List ℚ).getD i 0 + ((45 - 20) / 800) *
                ([1000, 500] : List ℚ).getD i 0) - 25))) *
            (1 - 0) / 1000 :=
  C1_energy_model_formula [1000, 500] [25, 30]
    { power := 5, inclination := 30, azimuth := 0,
      module_efficiency := 1/5, temperature_coefficient := 0,
      noct := 45, system_losses := 0 } rfl

/-- C8: replacing `power` by `c * power` (all else equal) multiplies every
element of the energy series by `c`; the model's output is linear in the
rated power. -/
theorem C8_linear_in_power (irr temp : List ℚ) (s : PVSystem) (c : ℚ)
    (h : 0 < c) :
    calculate_advanced_pv_energy irr temp { s with power := c * s.power } =
      (calculate_advanced_pv_energy irr temp s).map
        (List.map (fun x => c * x)) := by
  rcases hb : broadcast2 (fun t i => t + ((s.noct - 20) / 800) * i) temp irr
    with _ | cell
  · simp [calculate_advanced_pv_energy, hb]
  · simp only [calculate_advanced_pv_energy, hb]
    exact broadcast2_scale c (fun x y => by ring) irr _

/-- Witness for C8 at `irr = [1000, 500]`, `temp = [25, 30]`, `c = 2`. -/
theorem C8_linear_in_power_witness :
    calculate_advanced_pv_energy [1000, 500] [25, 30]
        { power := 2 * 5, inclination := 30, azimuth := 0,
          module_efficiency := 1/5, temperature_coefficient := 0,
          noct := 45, system_losses := 0 } =
      (calculate_advanced_pv_energy [1000, 500] [25, 30]
        { power := 5, inclination := 30, azimuth := 0,
          module_efficiency := 1/5, temperature_coefficient := 0,
          noct := 45, system_losses := 0 }).map
          (List.map (fun x => 2 * x)) :=
  C8_linear_in_power [1000, 500] [25, 30]
    { power := 5, inclination := 30, azimuth := 0,
      module_efficiency := 1/5, temperature_coefficient := 0,
      noct := 45, system_losses := 0 } 2 (by norm_num)

/-- Counterexample to C4: the input series `[1000]` and `[25, 25]` have
different lengths (1 ≠ 2), yet the model does not fail: numpy broadcasts
the length-1 irradiance array over the temperature array and returns a
length-2 output series. -/
theorem C4_counterexample :
    ([1000] : List ℚ).length ≠ ([25, 25] : List ℚ).length ∧
      calculate_advanced_pv_energy [1000] [25, 25]
        { power := 5, inclination := 30, azimuth := 0,
          module_efficiency := 1/5, temperature_coefficient := 0,
          noct := 45, system_losses := 0 } = some [5, 5] := by
  constructor
  · decide
  · norm_num [calculate_advanced_pv_energy, broadcast2, STC_TEMPERATURE,
      STC_IRRADIANCE, List.headI]

/-- C4 (amended): the model fails on a length mismatch whenever neither
series has length 1; a length-1 series is broadcast instead of failing. -/
theorem C4_dimension_mismatch (irr temp : List ℚ) (s : PVSystem)
    (hne : irr.length ≠ temp.length) (hi : irr.length ≠ 1)
    (ht : temp.length ≠ 1) :
    calculate_advanced_pv_energy irr temp s = none := by
  have h1 : ¬(temp.length = irr.length) := fun h => hne h.symm
  simp [calculate_advanced_pv_energy, broadcast2, h1, hi, ht]

/-- Witness for the amended C4 at `irr = [1, 2]`, `temp = [1, 2, 3]`. -/
theorem C4_dimension_mismatch_witness :
    calculate_advanced_pv_energy [1, 2] [1, 2, 3]
      { power := 5, inclination := 30, azimuth := 0,
        module_efficiency := 1/5, temperature_coefficient := 0,
        noct := 45, system_losses := 0 } = none :=
  C4_dimension_mismatch [1, 2] [1, 2, 3]
    { power := 5, inclination := 30, azimuth := 0,
      module_efficiency := 1/5, temperature_coefficient := 0,
      noct := 45, system_losses := 0 }
    (by decide) (by decide) (by decide)

/-- Counterexample to C5: a request with 0 PV systems passes validation —
`pv_systems` only carries `max_items=3`, no lower bound, so the empty list
is accepted rather than rejected. -/
theorem C5_counterexample :
    ForecastRequest.validates { address := "Berlin", pv_systems := [] }
      = true := by
  decide

/-- C5 (amended): with a valid address and field-valid systems, request
validation is exactly the upper bound of at most 3 systems — 0 systems are
accepted, 4 are rejected. -/
theorem C5_system_count_bound (addr : String) (systems : List PVSystem)
    (haddr : 3 ≤ addr.length)
    (hsys : systems.all PVSystem.validates = true) :
    (ForecastRequest.validates { address := addr, pv_systems := systems }
        = true) ↔ systems.length ≤ 3 := by
  simp [ForecastRequest.validates, haddr, hsys]

/-- Witness for the amended C5: a request with 4 field-valid systems. -/
theorem C5_system_count_bound_witness :
    (ForecastRequest.validates
        { address := "Berlin",
          pv_systems := List.replicate 4
            { power := 5, inclination := 30, azimuth := 0,
              module_efficiency := 18/100,
              temperature_coefficient := -35/10000,
              noct := 45, system_losses := 14/100 } } = true) ↔
      (List.replicate 4
        ({ power := 5, inclination := 30, azimuth := 0,
           module_efficiency := 18/100,
           temperature_coefficient := -35/10000,
           noct := 45, system_losses := 14/100 } : PVSystem)).length ≤ 3 :=
  C5_system_count_bound "Berlin" _ (by decide)
    (by simp [PVSystem.validates]; norm_num)

/-- C9: a query shorter than 3 characters yields `{"suggestions": []}`
without invoking the external geocoder, and the endpoint never surfaces an
internal geocoder failure — an exception also yields an empty list. -/
theorem C9_geocode_short_query_and_failures (geocoder : GeocoderOutcome)
    (query : String) :
    (query.length < 3 → geocode_address geocoder query = ([], false)) ∧
      (geocode_address (Except.error ()) query).1 = [] := by
  constructor
  · intro hq
    have hs : (pyStrip query).length < 3 :=
      lt_of_le_of_lt (pyStrip_length_le query) hq
    simp [geocode_address, hs]
  · unfold geocode_address
    split_ifs <;> rfl

/-- Witness for C9 at query `"ab"` and a failing geocoder. -/
theorem C9_geocode_short_query_and_failures_witness :
    geocode_address (Except.error ()) "ab" = ([], false) ∧
      (geocode_address (Except.error ()) "ab").1 = [] :=
  ⟨(C9_geocode_short_query_and_failures (Except.error ()) "ab").1 (by decide),
   (C9_geocode_short_query_and_failures (Except.error ()) "ab").2⟩

/-- C2: for each day `d < 7` the response's `daily_totals_kwh[d]` is the
sum of the unrounded combined hourly series over hours `d*24 .. d*24+23`,
rounded to 2 decimals only at the response boundary, and `total_daily_kwh`
equals `daily_totals_kwh[0]`. -/
theorem C2_daily_totals_window (lat lon : ℚ)
    (systems : List (PVSystem × FetchOutcome)) (d : ℕ) (hd : d < 7) :
    (forecastResult lat lon systems).daily_totals_kwh.getD d 0 =
      round2 ((((combinedHourly systems).drop (d * 24)).take 24).sum) ∧
    (forecastResult lat lon systems).total_daily_kwh =
      (forecastResult lat lon systems).daily_totals_kwh.getD 0 0 := by
  have hdt : ∀ e, e < 7 →
      (daily_totals (combinedHourly systems)).getD e 0 =
        round2 ((((combinedHourly systems).drop (e * 24)).take 24).sum) := by
    intro e he
    have hlen : e < ((List.range 7).map (fun day =>
        round2 ((((combinedHourly systems).drop (day * 24)).take 24).sum))).length := by
      rw [List.length_map, List.length_range]; exact he
    rw [daily_totals, List.getD_eq_getElem _ _ hlen, List.getElem_map,
      List.getElem_range]
  constructor
  · exact hdt d hd
  · show round2 ((daily_totals (combinedHourly systems)).getD 0 0) =
      (daily_totals (combinedHourly systems)).getD 0 0
    rw [hdt 0 (by norm_num), round2_round2]

/-- Witness for C2 at `d = 0` with no systems. -/
theorem C2_daily_totals_window_witness :
    (forecastResult 0 0 []).daily_totals_kwh.getD 0 0 =
      round2 ((((combinedHourly []).drop (0 * 24)).take 24).sum) ∧
    (forecastResult 0 0 []).total_daily_kwh =
      (forecastResult 0 0 []).daily_totals_kwh.getD 0 0 :=
  C2_daily_totals_window 0 0 [] 0 (by norm_num)

/-- C6: when one system's weather fetch raises or its model computation
fails, that system contributes nothing — the response equals the one for
the remaining systems — and the request still succeeds with a 200 (`.ok`)
response, never an error. -/
theorem C6_failed_system_skipped (lat lon : ℚ)
    (pre post : List (PVSystem × FetchOutcome)) (sys : PVSystem)
    (fetch : FetchOutcome)
    (hfail : fetch = Except.error () ∨ ∃ irr temp,
      fetch = Except.ok (irr, temp) ∧
        calculate_advanced_pv_energy irr temp sys = none) :
    get_pv_forecast (GeoOutcome.found lat lon) (pre ++ (sys, fetch) :: post) =
      get_pv_forecast (GeoOutcome.found lat lon) (pre ++ post) ∧
    ∃ r, get_pv_forecast (GeoOutcome.found lat lon)
        (pre ++ (sys, fetch) :: post) = Except.ok r := by
  have hskip : ∀ t, processSystem t sys fetch = t := by
    intro t
    rcases hfail with h | ⟨irr, temp, hf, hc⟩
    · rw [h]; rfl
    · rw [hf]; simp [processSystem, hc]
  have hcomb : combinedHourly (pre ++ (sys, fetch) :: post) =
      combinedHourly (pre ++ post) := by
    unfold combinedHourly
    simp only [List.foldl_append, List.foldl_cons, hskip]
  have hfr : forecastResult lat lon (pre ++ (sys, fetch) :: post) =
      forecastResult lat lon (pre ++ post) := by
    unfold forecastResult
    rw [hcomb]
  exact ⟨by show Except.ok _ = Except.ok _; rw [hfr], _, rfl⟩

/-- Witness for C6: one configured system whose fetch raised. -/
theorem C6_failed_system_skipped_witness :
    get_pv_forecast (GeoOutcome.found 1 2)
        ([] ++ (PVSystem.mk 5 30 0 (1/5) 0 45 0,
          (Except.error () : FetchOutcome)) :: []) =
      get_pv_forecast (GeoOutcome.found 1 2) ([] ++ []) ∧
    ∃ r, get_pv_forecast (GeoOutcome.found 1 2)
        ([] ++ (PVSystem.mk 5 30 0 (1/5) 0 45 0,
          (Except.error () : FetchOutcome)) :: []) = Except.ok r :=
  C6_failed_system_skipped 1 2 [] [] (PVSystem.mk 5 30 0 (1/5) 0 45 0)
    (Except.error ()) (Or.inl rfl)

/-- C7: a per-system energy series with fewer than 168 points is
zero-filled at the missing trailing positions and still added into the
combined sum — the per-system loop step succeeds on it. -/
theorem C7_short_series_zero_filled (xs : List ℚ) (h : xs.length < 168) :
    reindex168 xs = xs ++ List.replicate (168 - xs.length) 0 ∧
    ∀ (total : List ℚ) (sys : PVSystem) (irr temp : List ℚ),
      calculate_advanced_pv_energy irr temp sys = some xs →
      processSystem total sys (Except.ok (irr, temp)) =
        addSeries total (xs ++ List.replicate (168 - xs.length) 0) := by
  have hre : reindex168 xs = xs ++ List.replicate (168 - xs.length) 0 := by
    rw [reindex168_eq, List.take_of_length_le (le_of_lt h)]
  refine ⟨hre, ?_⟩
  intro total sys irr temp hc
  simp [processSystem, hc, hre]

/-- Witness for C7 at the empty per-system series. -/
theorem C7_short_series_zero_filled_witness :
    reindex168 [] = [] ++ List.replicate (168 - ([] : List ℚ).length) 0 ∧
      processSystem (List.replicate 168 0)
          { power := 5, inclination := 30, azimuth := 0,
            module_efficiency := 1/5, temperature_coefficient := 0,
            noct := 45, system_losses := 0 } (Except.ok ([], [])) =
        addSeries (List.replicate 168 0)
          ([] ++ List.replicate (168 - ([] : List ℚ).length) 0) :=
  ⟨(C7_short_series_zero_filled [] (by decide)).1,
   (C7_short_series_zero_filled [] (by decide)).2 (List.replicate 168 0)
     { power := 5, inclination := 30, azimuth := 0,
       module_efficiency := 1/5, temperature_coefficient := 0,
       noct := 45, system_losses := 0 } [] [] rfl⟩

/-- C10: every successful forecast response carries exactly 168 hourly
entries and 7 daily totals, whatever the per-system outcomes; a series
longer than 168 points enters the combined sum truncated to its first 168
elements, the rest silently discarded. -/
theorem C10_response_shape (lat lon : ℚ)
    (systems : List (PVSystem × FetchOutcome)) :
    (forecastResult lat lon systems).hourly_forecast_kwh.length = 168 ∧
    (forecastResult lat lon systems).daily_totals_kwh.length = 7 ∧
    ∀ (total : List ℚ) (sys : PVSystem) (irr temp xs : List ℚ),
      calculate_advanced_pv_energy irr temp sys = some xs →
      processSystem total sys (Except.ok (irr, temp)) =
        addSeries total
          (xs.take 168 ++ List.replicate (168 - xs.length) 0) := by
  refine ⟨?_, ?_, ?_⟩
  · show ((combinedHourly systems).map round2).length = 168
    rw [List.length_map, combinedHourly_length]
  · show (daily_totals (combinedHourly systems)).length = 7
    rw [daily_totals, List.length_map, List.length_range]
  · intro total sys irr temp xs hc
    simp [processSystem, hc, reindex168_eq]

/-- Witness for C10 with one system whose model output is empty. -/
theorem C10_response_shape_witness :
    (forecastResult 3 4 []).hourly_forecast_kwh.length = 168 ∧
    (forecastResult 3 4 []).daily_totals_kwh.length = 7 ∧
    processSystem (List.replicate 168 0)
        { power := 5, inclination := 30, azimuth := 0,
          module_efficiency := 1/5, temperature_coefficient := 0,
          noct := 45, system_losses := 0 } (Except.ok ([], [])) =
      addSeries (List.replicate 168 0)
        (([] : List ℚ).take 168 ++
          List.replicate (168 - ([] : List ℚ).length) 0) :=
  ⟨(C10_response_shape 3 4 []).1, (C10_response_shape 3 4 []).2.1,
   (C10_response_shape 3 4 []).2.2 (List.replicate 168 0)
     { power := 5, inclination := 30, azimuth := 0,
       module_efficiency := 1/5, temperature_coefficient := 0,
       noct := 45, system_losses := 0 } [] [] [] rfl⟩

end PVForecast
